import Mathlib

/-!
Portfolio backend: the answer pipeline of `src/index.js`.

A shallow embedding of the question-answering core of the server:

* the keyword responder `getFallbackResponse` (index.js 148-176),
* the provider chain `getAIResponse` (index.js 99-145),
* the start-up selection of a provider client (index.js 19-35),
* the status endpoint `GET /api/ai-status` (index.js 208-214).

JavaScript strings are modelled by Lean strings (sequences of Unicode scalar
values).  External SDK clients are modelled by the results their methods
give, a thrown exception being `Except.error`.
-/

namespace Portfolio

set_option maxRecDepth 100000

/-! ## String primitives used by the responder -/

/-- Lower-casing of one character, as `String.prototype.toLowerCase` performs it
on the characters that matter to an ASCII search: `A`-`Z` go to `a`-`z`,
U+0130 (capital I with dot) goes to `i` followed by U+0307, and U+212A (Kelvin
sign) goes to `k`.  These are the only characters whose lower-case form
contains an ASCII character different from the character itself.  Every other
character is left as it is: JavaScript maps a non-ASCII character other than
these two to non-ASCII characters only, so the occurrences of an ASCII word
are the same. -/
def lowerChar (c : Char) : List Char :=
  if c = Char.ofNat 0x130 then ['i', Char.ofNat 0x307]
  else if c = Char.ofNat 0x212A then ['k']
  else [c.toLower]

/-- Model of `question.toLowerCase()`. -/
def toLowerCase (s : String) : String :=
  String.mk (s.data.flatMap lowerChar)

/-- Search of `p` at every position of the list, left to right. -/
def includesList : List Char → List Char → Bool
  | [], p => p.isEmpty
  | c :: s, p => p.isPrefixOf (c :: s) || includesList s p

/-- Model of `s.includes(searchString)`: `searchString` occurs in `s` as a
contiguous run of characters. -/
def includes (s searchString : String) : Bool :=
  includesList s.data searchString.data

/-! ## The canned answers (the string literals of index.js 152-175) -/

/-- Answer of the research/focus rule (index.js 152). -/
def researchAnswer : String :=
  "Alemu's research focuses on Artificial Intelligence in Medicine, particularly in medical imaging and healthcare applications. He is currently pursuing a PhD at the University of Brescia in AI for medical applications."

/-- Answer of the education/degree rule (index.js 156). -/
def educationAnswer : String :=
  "Alemu holds an MSc in Communication Technologies and Multimedia from the University of Brescia (2019-2022) and is currently pursuing a PhD in Artificial Intelligence in Medicine at the same university (2022-2025)."

/-- Answer of the skill/expertise rule (index.js 160). -/
def skillAnswer : String :=
  "Alemu's technical skills include Machine Learning, Deep Learning, Python, TensorFlow, PyTorch, Natural Language Processing, Computer Vision, and Data Science. He specializes in AI applications for healthcare."

/-- Answer of the contact/email rule (index.js 164). -/
def contactAnswer : String :=
  "You can contact Alemu at alemu.nigru@unibs.it or through his LinkedIn profile at linkedin.com/in/alemu-sisay. He's based in Italy and available for research collaborations."

/-- Answer of the publication/paper rule (index.js 168). -/
def publicationAnswer : String :=
  "Alemu has published research papers in AI and healthcare applications. His work focuses on developing AI solutions for medical imaging and disease prediction."

/-- Answer of the project rule (index.js 172). -/
def projectAnswer : String :=
  "Alemu has worked on several AI projects, including an AI-powered healthcare system for disease prediction using machine learning models developed with Python, TensorFlow, and Scikit-learn."

/-- Answer returned when no rule matches (index.js 175). -/
def genericAnswer : String :=
  "I apologize, but I'm having trouble accessing my knowledge base right now. Please try asking about Alemu's research focus, education, skills, publications, or contact information. You can also reach out to him directly at alemu.nigru@unibs.it."

/-! ## `getFallbackResponse` (index.js 148-176) -/

/-- The keyword responder: a chain of `if` statements over the lower-cased
question, each returning its literal. -/
def getFallbackResponse (question : String) : String :=
  let lowerQuestion := toLowerCase question
  if includes lowerQuestion "research" || includes lowerQuestion "focus" then
    researchAnswer
  else if includes lowerQuestion "education" || includes lowerQuestion "degree" then
    educationAnswer
  else if includes lowerQuestion "skill" || includes lowerQuestion "expertise" then
    skillAnswer
  else if includes lowerQuestion "contact" || includes lowerQuestion "email" then
    contactAnswer
  else if includes lowerQuestion "publication" || includes lowerQuestion "paper" then
    publicationAnswer
  else if includes lowerQuestion "project" then
    projectAnswer
  else
    genericAnswer

/-! ## `cvData` (index.js 38-96) -/

/-- Shape of `cvData.personal`. -/
structure Personal where
  name : String
  title : String
  email : String
  location : String
  phone : String
  linkedin : String
  github : String

/-- Shape of an entry of `cvData.education`. -/
structure Education where
  degree : String
  institution : String
  year : String
  focus : String

/-- Shape of an entry of `cvData.experience`. -/
structure Experience where
  title : String
  company : String
  period : String
  description : String

/-- Shape of an entry of `cvData.publications`. -/
structure Publication where
  title : String
  journal : String
  year : String
  doi : String

/-- Shape of an entry of `cvData.projects`. -/
structure Project where
  name : String
  description : String
  technologies : List String

/-- Shape of the `cvData` object. -/
structure CvData where
  personal : Personal
  education : List Education
  experience : List Experience
  skills : List String
  publications : List Publication
  projects : List Project

/-- The constant `cvData` of index.js 38-96. -/
def cvData : CvData where
  personal :=
    { name := "Alemu Sisay Nigru"
      title := "AI Researcher & Academic"
      email := "alemu.nigru@unibs.it"
      location := "Italy"
      phone := "+39 3518443838"
      linkedin := "linkedin.com/in/alemu-sisay"
      github := "github.com/alexsisay" }
  education :=
    [ { degree := "PhD, Artificial Intelligence in Medicine"
        institution := "University of Brescia"
        year := "2022-2025"
        focus := "Artificial Intelligence, Machine Learning, Medical Imaging" },
      { degree := "MSc, Communication Technologies and Multimedia"
        institution := "University of Brescia"
        year := "2019-2022"
        focus := "Multimedia Engineering, AI, Computer Vision" } ]
  experience :=
    [ { title := "AI Research Scientist"
        company := "Research Institution"
        period := "2022-Present"
        description := "Leading research in AI and machine learning applications" },
      { title := "Teaching Assistant"
        company := "University"
        period := "2020-2022"
        description := "Assisted in teaching AI and computer science courses" } ]
  skills :=
    [ "Machine Learning", "Deep Learning", "Python", "TensorFlow", "PyTorch",
      "Natural Language Processing", "Computer Vision", "Data Science",
      "Research Methodology", "Academic Writing" ]
  publications :=
    [ { title := "Advanced AI Applications in Healthcare"
        journal := "AI Research Journal"
        year := "2024"
        doi := "10.1000/example" } ]
  projects :=
    [ { name := "AI-Powered Healthcare System"
        description := "Developed machine learning models for disease prediction"
        technologies := ["Python", "TensorFlow", "Scikit-learn"] } ]

/-! ## `JSON.stringify` on the shapes of `cvData` -/

/-- Escape of one character inside a JSON string: the quote, the backslash and
the control characters below U+0020. -/
def escapeChar (c : Char) : List Char :=
  let bs := Char.ofNat 92
  if c = Char.ofNat 34 then [bs, Char.ofNat 34]
  else if c = bs then [bs, bs]
  else if c = Char.ofNat 8 then [bs, 'b']
  else if c = Char.ofNat 9 then [bs, 't']
  else if c = Char.ofNat 10 then [bs, 'n']
  else if c = Char.ofNat 12 then [bs, 'f']
  else if c = Char.ofNat 13 then [bs, 'r']
  else if c.toNat < 32 then
    let d := Nat.toDigits 16 c.toNat
    [bs, 'u'] ++ List.replicate (4 - d.length) '0' ++ d
  else [c]

/-- A string value as `JSON.stringify` writes it. -/
def jsonQuote (s : String) : String :=
  String.mk ([Char.ofNat 34] ++ s.data.flatMap escapeChar ++ [Char.ofNat 34])

/-- An object, given its keys and its already serialised values. -/
def jsonObject (fields : List (String × String)) : String :=
  "\x7b" ++ ",".intercalate (fields.map fun f => jsonQuote f.1 ++ ":" ++ f.2) ++ "\x7d"

/-- An array, given its already serialised items. -/
def jsonArray (items : List String) : String :=
  "[" ++ ",".intercalate items ++ "]"

/-- Serialisation of `cvData.personal`. -/
def Personal.stringify (p : Personal) : String :=
  jsonObject
    [("name", jsonQuote p.name), ("title", jsonQuote p.title), ("email", jsonQuote p.email),
     ("location", jsonQuote p.location), ("phone", jsonQuote p.phone),
     ("linkedin", jsonQuote p.linkedin), ("github", jsonQuote p.github)]

/-- Serialisation of an education entry. -/
def Education.stringify (e : Education) : String :=
  jsonObject
    [("degree", jsonQuote e.degree), ("institution", jsonQuote e.institution),
     ("year", jsonQuote e.year), ("focus", jsonQuote e.focus)]

/-- Serialisation of an experience entry. -/
def Experience.stringify (e : Experience) : String :=
  jsonObject
    [("title", jsonQuote e.title), ("company", jsonQuote e.company),
     ("period", jsonQuote e.period), ("description", jsonQuote e.description)]

/-- Serialisation of a publication entry. -/
def Publication.stringify (p : Publication) : String :=
  jsonObject
    [("title", jsonQuote p.title), ("journal", jsonQuote p.journal),
     ("year", jsonQuote p.year), ("doi", jsonQuote p.doi)]

/-- Serialisation of a project entry. -/
def Project.stringify (p : Project) : String :=
  jsonObject
    [("name", jsonQuote p.name), ("description", jsonQuote p.description),
     ("technologies", jsonArray (p.technologies.map jsonQuote))]

/-- The template literal of index.js 100-113, with its line breaks and
indentation. -/
def systemPrompt (userQuestion : String) : String :=
  "You are an AI assistant for Alemu Sisay Nigru's academic portfolio. \n" ++
  "  You have access to the following information about Alemu:\n" ++
  "  \n" ++
  "  Personal: " ++ cvData.personal.stringify ++ "\n" ++
  "  Education: " ++ jsonArray (cvData.education.map Education.stringify) ++ "\n" ++
  "  Experience: " ++ jsonArray (cvData.experience.map Experience.stringify) ++ "\n" ++
  "  Skills: " ++ jsonArray (cvData.skills.map jsonQuote) ++ "\n" ++
  "  Publications: " ++ jsonArray (cvData.publications.map Publication.stringify) ++ "\n" ++
  "  Projects: " ++ jsonArray (cvData.projects.map Project.stringify) ++ "\n" ++
  "  \n" ++
  "  Answer questions about Alemu's academic and professional background based on this information. \n" ++
  "  Be professional, concise, and helpful. If you don't have information about something, say so politely.\n" ++
  "  \n" ++
  "  User question: " ++ userQuestion

/-! ## The provider SDKs, as seen by `getAIResponse` -/

/-- A thrown JavaScript exception (or a rejected promise that is awaited). -/
structure JsError where
  message : String
deriving DecidableEq, Repr

/-- The values `getAIResponse` can hand back: a string, or the `null` or
`undefined` that the `content` field of a chat message may hold. -/
inductive JsValue where
  | str (s : String)
  | null
  | undefined
deriving DecidableEq, Repr

/-- Whether the value is a string of length at least 1. -/
def JsValue.isNonEmptyString : JsValue → Bool
  | .str s => decide (1 ≤ s.length)
  | .null => false
  | .undefined => false

/-- The object behind `await result.response`: the synchronous `text()` gives
the generated text or throws. -/
structure GeminiResponse where
  text : Except JsError String

/-- The result of `model.generateContent(prompt)`: reading and awaiting
`.response` gives the response or throws. -/
structure GenerateContentResult where
  response : Except JsError GeminiResponse

/-- The object `gemini.getGenerativeModel(...)` gives. -/
structure GenerativeModel where
  generateContent : String → Except JsError GenerateContentResult

/-- The `GoogleGenerativeAI` client; the argument of `getGenerativeModel` is
the model name. -/
structure GoogleGenerativeAI where
  getGenerativeModel : String → Except JsError GenerativeModel

/-- One entry of the `messages` array of a chat request. -/
structure ChatTurn where
  role : String
  content : String
deriving DecidableEq, Repr

/-- The argument of `openai.chat.completions.create`; `temperature` holds the
decimal literal as written. -/
structure ChatRequest where
  model : String
  messages : List ChatTurn
  max_tokens : Nat
  temperature : String
deriving DecidableEq, Repr

/-- The `message` object of a choice. -/
structure ChatMessage where
  content : JsValue

/-- One entry of `completion.choices`; `message` may be missing. -/
structure Choice where
  message : Option ChatMessage

/-- The object `openai.chat.completions.create` resolves to. -/
structure ChatCompletion where
  choices : List Choice

/-- The `OpenAI` client: `create` stands for `chat.completions.create`. -/
structure OpenAI where
  create : ChatRequest → Except JsError ChatCompletion

/-- What the run of a request leaves behind: the provider calls made and the
lines written with `console.error`. -/
inductive Event where
  | geminiCall (model prompt : String)
  | openaiCall (request : ChatRequest)
  | consoleError (label : String) (error : JsError)
deriving DecidableEq, Repr

/-- Whether the event is a call of a provider SDK. -/
def Event.isProviderCall : Event → Bool
  | .geminiCall _ _ => true
  | .openaiCall _ => true
  | .consoleError _ _ => false

/-- Whether the event is a call of the OpenAI client. -/
def Event.isOpenaiCall : Event → Bool
  | .openaiCall _ => true
  | _ => false

/-- Computations of the request handler: they may throw, and they append to
the list of events, which a thrown exception does not undo. -/
abbrev Js := ExceptT JsError (StateM (List Event))

/-- Record an event. -/
def emit (e : Event) : Js Unit :=
  modify fun log => log ++ [e]

/-- The outcome of an SDK method, brought into the handler. -/
def fromSdk {α : Type} (r : Except JsError α) : Js α :=
  match r with
  | .ok a => pure a
  | .error e => throw e

/-- Run a computation from an empty list of events. -/
def Js.outcome {α : Type} (x : Js α) : Except JsError α × List Event :=
  (x.run.run [])

/-- The `TypeError` of reading a property of `undefined`. -/
def typeError : JsError :=
  ⟨"TypeError: Cannot read properties of undefined"⟩

/-- The expression `completion.choices[0].message.content` of index.js 135. -/
def firstContent (completion : ChatCompletion) : Except JsError JsValue :=
  match completion.choices.head? with
  | none => .error typeError
  | some choice =>
    match choice.message with
    | none => .error typeError
    | some message => .ok message.content

/-! ## Module state and `getAIResponse` (index.js 19-35, 99-145) -/

/-- The module-level variables `aiProvider`, `openai` and `gemini`; `none` is
`null`. -/
structure Module where
  aiProvider : String
  openai : Option OpenAI
  gemini : Option GoogleGenerativeAI

/-- The request sent to OpenAI (index.js 126-134). -/
def chatRequest (userQuestion : String) : ChatRequest where
  model := "gpt-3.5-turbo"
  messages := [⟨"system", systemPrompt userQuestion⟩, ⟨"user", userQuestion⟩]
  max_tokens := 300
  temperature := "0.7"

/-- The Gemini call of index.js 118-121: get the model, generate, await the
response, read its text.  Each step may throw. -/
def geminiGenerate (gemini : GoogleGenerativeAI) (prompt : String) : Except JsError String := do
  let model ← gemini.getGenerativeModel "gemini-pro"
  let result ← model.generateContent prompt
  let response ← result.response
  response.text

/-- The OpenAI call of index.js 126-135: create the completion and read the
content of the first choice.  Each step may throw. -/
def openaiComplete (openai : OpenAI) (userQuestion : String) : Except JsError JsValue := do
  let completion ← openai.create (chatRequest userQuestion)
  firstContent completion

/-- The body of the `try` block of `getAIResponse` (index.js 116-139). -/
def getAIResponseTry (m : Module) (userQuestion : String) : Js JsValue :=
  match m.gemini with
  | some gemini => do
    emit (.geminiCall "gemini-pro" (systemPrompt userQuestion))
    let text ← fromSdk (geminiGenerate gemini (systemPrompt userQuestion))
    pure (.str text)
  | none =>
    match m.openai with
    | some openai => do
      emit (.openaiCall (chatRequest userQuestion))
      fromSdk (openaiComplete openai userQuestion)
    | none => pure (.str (getFallbackResponse userQuestion))

/-- The function `getAIResponse`: the `try` block, and the `catch` block that
logs and answers with the keyword responder. -/
def getAIResponse (m : Module) (userQuestion : String) : Js JsValue :=
  tryCatch (getAIResponseTry m userQuestion) fun error => do
    emit (.consoleError "AI API Error:" error)
    pure (.str (getFallbackResponse userQuestion))

/-! ## Start-up and the status endpoint (index.js 19-35, 208-214) -/

/-- The three environment variables read at start-up; `none` is an unset
variable. -/
structure Env where
  AI_PROVIDER : Option String
  OPENAI_API_KEY : Option String
  GEMINI_API_KEY : Option String

/-- JavaScript truthiness of an environment variable: set and not empty. -/
def truthy : Option String → Bool
  | some s => s ≠ ""
  | none => false

/-- The constructors of the two SDK clients, from the API key. -/
structure Sdk where
  newOpenAI : String → OpenAI
  newGoogleGenerativeAI : String → GoogleGenerativeAI

/-- The value of `x || d` for an environment variable `x`. -/
def orDefault (x : Option String) (d : String) : String :=
  match x with
  | some s => if s ≠ "" then s else d
  | none => d

/-- The start-up code of index.js 19-35.  In the branch that creates a client
the key is set and not empty, so `getD` gives the key itself.  The line
written with `console.log` in the last branch is left out. -/
def initialise (sdk : Sdk) (env : Env) : Module :=
  let aiProvider := orDefault env.AI_PROVIDER "gemini"
  if aiProvider = "openai" && truthy env.OPENAI_API_KEY then
    { aiProvider := aiProvider
      openai := some (sdk.newOpenAI (env.OPENAI_API_KEY.getD ""))
      gemini := none }
  else if aiProvider = "gemini" && truthy env.GEMINI_API_KEY then
    { aiProvider := aiProvider
      openai := none
      gemini := some (sdk.newGoogleGenerativeAI (env.GEMINI_API_KEY.getD "")) }
  else
    { aiProvider := aiProvider, openai := none, gemini := none }

/-- Truthiness of `gemini || openai`: one of the two clients is not `null`. -/
def Module.anyClient (m : Module) : Bool :=
  m.gemini.isSome || m.openai.isSome

/-- The body of the answer of `GET /api/ai-status`. -/
structure AiStatus where
  provider : String
  available : Bool
  fallback : Bool
deriving DecidableEq, Repr

/-- The handler of `GET /api/ai-status` (index.js 208-214). -/
def aiStatus (m : Module) : AiStatus where
  provider := m.aiProvider
  available := !!m.anyClient
  fallback := !m.anyClient

/-! ## Sample clients and environments -/

/-- A Gemini client whose call succeeds with the text `t`. -/
def geminiAnswering (t : String) : GoogleGenerativeAI :=
  ⟨fun _ => .ok ⟨fun _ => .ok ⟨.ok ⟨.ok t⟩⟩⟩⟩

/-- A Gemini client whose `generateContent` throws. -/
def geminiUnavailable : GoogleGenerativeAI :=
  ⟨fun _ => .ok ⟨fun _ => .error ⟨"503 Service Unavailable"⟩⟩⟩

/-- A Gemini client whose response throws when its text is read. -/
def geminiBlocked : GoogleGenerativeAI :=
  ⟨fun _ => .ok ⟨fun _ => .ok ⟨.ok ⟨.error ⟨"Response was blocked"⟩⟩⟩⟩⟩

/-- An OpenAI client whose completion has one choice, with content `v`. -/
def openaiAnswering (v : JsValue) : OpenAI :=
  ⟨fun _ => .ok ⟨[⟨some ⟨v⟩⟩]⟩⟩

/-- An OpenAI client whose `create` throws. -/
def openaiUnavailable : OpenAI :=
  ⟨fun _ => .error ⟨"401 Incorrect API key"⟩⟩

/-- An OpenAI client whose completion has no choice. -/
def openaiNoChoices : OpenAI :=
  ⟨fun _ => .ok ⟨[]⟩⟩

/-- SDK constructors giving clients that answer with a fixed text. -/
def sampleSdk : Sdk where
  newOpenAI := fun _ => openaiAnswering (.str "From OpenAI")
  newGoogleGenerativeAI := fun _ => geminiAnswering "From Gemini"

/-- SDK constructors for a Gemini outage: the Gemini client throws, the OpenAI
client would answer. -/
def outageSdk : Sdk where
  newOpenAI := fun _ => openaiAnswering (.str "From OpenAI")
  newGoogleGenerativeAI := fun _ => geminiUnavailable

/-- An environment that selects Gemini and sets the keys of both providers. -/
def bothKeysEnv : Env where
  AI_PROVIDER := some "gemini"
  OPENAI_API_KEY := some "sk-openai"
  GEMINI_API_KEY := some "gemini-key"

/-- An environment that selects OpenAI and sets its key. -/
def openaiEnv : Env where
  AI_PROVIDER := some "openai"
  OPENAI_API_KEY := some "sk-openai"
  GEMINI_API_KEY := none

/-- A context that differs from `cvData` in the email and the institution. -/
def otherContext : CvData :=
  { cvData with
    personal := { cvData.personal with email := "a.nigru@example.org" }
    education := [⟨"BSc, Computer Science", "Addis Ababa University", "2012-2016", "Software"⟩] }

/-! ## The rule table of the specification -/

/-- A rule of the responder as the specification words it: a set of keywords
and the answer they select. -/
structure Rule where
  keywords : List String
  answer : String

/-- The ordered rule list of the specification: research/focus,
education/degree, skill/expertise, contact/email, publication/paper, project. -/
def specRules : List Rule :=
  [ ⟨["research", "focus"], researchAnswer⟩,
    ⟨["education", "degree"], educationAnswer⟩,
    ⟨["skill", "expertise"], skillAnswer⟩,
    ⟨["contact", "email"], contactAnswer⟩,
    ⟨["publication", "paper"], publicationAnswer⟩,
    ⟨["project"], projectAnswer⟩ ]

/-- Whether one of the rule's keywords is a substring of `s`. -/
def Rule.matches (r : Rule) (s : String) : Bool :=
  r.keywords.any fun k => decide (k.data <:+: s.data)

/-- The responder as the specification words it: the answer of the first rule
of the list that matches the lower-cased question, the generic answer when
none does. -/
def specFirstMatch (question : String) : String :=
  match specRules.find? fun r => r.matches (toLowerCase question) with
  | some r => r.answer
  | none => genericAnswer

/-! ## Facts about the string primitives -/

theorem includesList_iff (s p : List Char) : includesList s p = true ↔ p <:+: s := by
  induction s with
  | nil => cases p <;> simp [includesList]
  | cons c s ih =>
    simp only [includesList, Bool.or_eq_true, ih, List.infix_cons_iff, List.isPrefixOf_iff_prefix]

theorem includes_iff (s p : String) : includes s p = true ↔ p.data <:+: s.data :=
  includesList_iff s.data p.data

theorem decide_infix (s p : String) : decide (p.data <:+: s.data) = includes s p := by
  rcases h : includes s p with _ | _
  · simp only [decide_eq_false_iff_not, ← includes_iff, h]; simp
  · simp only [decide_eq_true_eq, ← includes_iff, h]

/-- The responder returns one of its seven literals. -/
theorem getFallbackResponse_mem (q : String) :
    getFallbackResponse q ∈ [researchAnswer, educationAnswer, skillAnswer, contactAnswer,
      publicationAnswer, projectAnswer, genericAnswer] := by
  unfold getFallbackResponse
  simp only []
  split_ifs <;> simp

/-! ## The keyword responder -/

/-- C6: for every question, `getFallbackResponse` gives the answer of the
first rule, in the order research/focus, education/degree, skill/expertise,
contact/email, publication/paper, project, one of whose keywords is a
substring of the lower-cased question, and the generic answer when no rule
matches; the question "What are your research skills and projects?" gets the
research/focus answer, which is neither the skill nor the project answer. -/
theorem getFallbackResponse_first_match (q : String) :
    getFallbackResponse q = specFirstMatch q ∧
    getFallbackResponse "What are your research skills and projects?" = researchAnswer ∧
    researchAnswer ≠ skillAnswer ∧ researchAnswer ≠ projectAnswer := by
  refine ⟨?_, by rfl, by decide, by decide⟩
  unfold getFallbackResponse specFirstMatch
  simp only [specRules, Rule.matches, List.find?_cons, List.find?_nil, List.any_cons,
    List.any_nil, Bool.or_false, decide_infix]
  generalize (includes (toLowerCase q) "research" || includes (toLowerCase q) "focus") = b1
  generalize (includes (toLowerCase q) "education" || includes (toLowerCase q) "degree") = b2
  generalize (includes (toLowerCase q) "skill" || includes (toLowerCase q) "expertise") = b3
  generalize (includes (toLowerCase q) "contact" || includes (toLowerCase q) "email") = b4
  generalize (includes (toLowerCase q) "publication" || includes (toLowerCase q) "paper") = b5
  generalize includes (toLowerCase q) "project" = b6
  cases b1 <;> cases b2 <;> cases b3 <;> cases b4 <;> cases b5 <;> cases b6 <;> rfl

/-- The literals of the responder are not empty. -/
theorem answers_length_pos (a : String)
    (ha : a ∈ [researchAnswer, educationAnswer, skillAnswer, contactAnswer,
      publicationAnswer, projectAnswer, genericAnswer]) : 1 ≤ a.length := by
  simp only [List.mem_cons, List.mem_singleton, List.not_mem_nil, or_false] at ha
  rcases ha with rfl | rfl | rfl | rfl | rfl | rfl | rfl <;> decide

/-- C7: `getFallbackResponse` is a total function on strings and, for every
question (the empty one included), the string it returns has length at least
1 and so is not the empty string. -/
theorem getFallbackResponse_nonempty (q : String) :
    1 ≤ (getFallbackResponse q).length ∧ getFallbackResponse q ≠ "" ∧
    1 ≤ (getFallbackResponse "").length := by
  have key : ∀ x, 1 ≤ (getFallbackResponse x).length := fun x =>
    answers_length_pos _ (getFallbackResponse_mem x)
  refine ⟨key q, ?_, key ""⟩
  intro h
  have := key q
  rw [h] at this
  exact absurd this (by decide)

/-- C8: when the lower-cased question contains none of research, focus,
education, degree, skill, expertise, publication, paper, project, the answer
contains `cvData.personal.email`; it is the contact answer when the
lower-cased question contains contact or email, and the generic answer
otherwise. -/
theorem getFallbackResponse_contains_email (q : String)
    (h : ∀ k ∈ ["research", "focus", "education", "degree", "skill", "expertise",
      "publication", "paper", "project"], includes (toLowerCase q) k = false) :
    includes (getFallbackResponse q) cvData.personal.email = true ∧
    (includes (toLowerCase q) "contact" = true ∨ includes (toLowerCase q) "email" = true →
      getFallbackResponse q = contactAnswer) ∧
    (includes (toLowerCase q) "contact" = false → includes (toLowerCase q) "email" = false →
      getFallbackResponse q = genericAnswer) := by
  simp only [List.mem_cons, List.mem_singleton, List.not_mem_nil, or_false, forall_eq_or_imp,
    forall_eq] at h
  obtain ⟨h1, h2, h3, h4, h5, h6, h7, h8, h9⟩ := h
  have hc : (includes (toLowerCase q) "contact" = true ∨ includes (toLowerCase q) "email" = true →
      getFallbackResponse q = contactAnswer) := by
    intro hce
    unfold getFallbackResponse
    simp only [h1, h2, h3, h4, h5, h6, h7, h8, h9]
    rcases hce with hce | hce <;> simp [hce]
  have hn : (includes (toLowerCase q) "contact" = false →
      includes (toLowerCase q) "email" = false → getFallbackResponse q = genericAnswer) := by
    intro ha hb
    unfold getFallbackResponse
    simp [h1, h2, h3, h4, h5, h6, h7, h8, h9, ha, hb]
  refine ⟨?_, hc, hn⟩
  rcases hca : includes (toLowerCase q) "contact" with _ | _
  · rcases hcb : includes (toLowerCase q) "email" with _ | _
    · rw [hn hca hcb]; rfl
    · rw [hc (Or.inr hcb)]; rfl
  · rw [hc (Or.inl hca)]; rfl

/-- Witness of C8 at the two questions of the specification's scenarios. -/
theorem getFallbackResponse_contains_email_witness :
    (includes (getFallbackResponse "How can I contact you?") cvData.personal.email = true ∧
      getFallbackResponse "How can I contact you?" = contactAnswer) ∧
    (includes (getFallbackResponse "xyz unrelated gibberish") cvData.personal.email = true ∧
      getFallbackResponse "xyz unrelated gibberish" = genericAnswer) :=
  ⟨⟨(getFallbackResponse_contains_email "How can I contact you?" (by decide)).1,
    (getFallbackResponse_contains_email "How can I contact you?" (by decide)).2.1
      (Or.inl (by decide))⟩,
   ⟨(getFallbackResponse_contains_email "xyz unrelated gibberish" (by decide)).1,
    (getFallbackResponse_contains_email "xyz unrelated gibberish" (by decide)).2.2
      (by decide) (by decide)⟩⟩

/-! ## The five paths of `getAIResponse` -/

theorem outcome_no_client (m : Module) (q : String) (hg : m.gemini = none)
    (ho : m.openai = none) :
    (getAIResponse m q).outcome = (.ok (.str (getFallbackResponse q)), []) := by
  simp only [getAIResponse, getAIResponseTry, hg, ho]
  rfl

theorem outcome_gemini_ok (m : Module) (q : String) (g : GoogleGenerativeAI) (t : String)
    (hg : m.gemini = some g) (ht : geminiGenerate g (systemPrompt q) = .ok t) :
    (getAIResponse m q).outcome = (.ok (.str t), [.geminiCall "gemini-pro" (systemPrompt q)]) := by
  simp only [getAIResponse, getAIResponseTry, hg, ht]
  rfl

theorem outcome_gemini_error (m : Module) (q : String) (g : GoogleGenerativeAI) (e : JsError)
    (hg : m.gemini = some g) (ht : geminiGenerate g (systemPrompt q) = .error e) :
    (getAIResponse m q).outcome =
      (.ok (.str (getFallbackResponse q)),
        [.geminiCall "gemini-pro" (systemPrompt q), .consoleError "AI API Error:" e]) := by
  simp only [getAIResponse, getAIResponseTry, hg, ht]
  rfl

theorem outcome_openai_ok (m : Module) (q : String) (o : OpenAI) (v : JsValue)
    (hg : m.gemini = none) (ho : m.openai = some o) (hv : openaiComplete o q = .ok v) :
    (getAIResponse m q).outcome = (.ok v, [.openaiCall (chatRequest q)]) := by
  simp only [getAIResponse, getAIResponseTry, hg, ho, hv]
  rfl

theorem outcome_openai_error (m : Module) (q : String) (o : OpenAI) (e : JsError)
    (hg : m.gemini = none) (ho : m.openai = some o) (hv : openaiComplete o q = .error e) :
    (getAIResponse m q).outcome =
      (.ok (.str (getFallbackResponse q)),
        [.openaiCall (chatRequest q), .consoleError "AI API Error:" e]) := by
  simp only [getAIResponse, getAIResponseTry, hg, ho, hv]
  rfl

/-! ## The provider chain -/

/-- C1: when neither client is configured (`gemini` and `openai` are both
null), `getAIResponse(q)` returns exactly `getFallbackResponse(q)` for every
question, and the run makes no provider call (it leaves no event at all). -/
theorem getAIResponse_no_provider (m : Module) (q : String) (hg : m.gemini = none)
    (ho : m.openai = none) :
    (getAIResponse m q).outcome.1 = .ok (.str (getFallbackResponse q)) ∧
    (∀ e ∈ (getAIResponse m q).outcome.2, e.isProviderCall = false) ∧
    (getAIResponse m q).outcome.2 = [] := by
  rw [outcome_no_client m q hg ho]
  simp

/-- Witness of C1: the module with no client, asked how to make contact. -/
theorem getAIResponse_no_provider_witness :
    (getAIResponse ⟨"gemini", none, none⟩ "How can I contact you?").outcome.1
        = .ok (.str (getFallbackResponse "How can I contact you?")) ∧
    (∀ e ∈ (getAIResponse ⟨"gemini", none, none⟩ "How can I contact you?").outcome.2,
      e.isProviderCall = false) ∧
    (getAIResponse ⟨"gemini", none, none⟩ "How can I contact you?").outcome.2 = [] :=
  getAIResponse_no_provider ⟨"gemini", none, none⟩ "How can I contact you?" rfl rfl

/-- C2: when the Gemini client (the provider tried first) is configured and
its call succeeds with the text `t`, `getAIResponse(q)` returns `t` and the
OpenAI client is not invoked, whether it is configured or not. -/
theorem getAIResponse_primary_success (m : Module) (q : String) (g : GoogleGenerativeAI)
    (t : String) (hg : m.gemini = some g) (ht : geminiGenerate g (systemPrompt q) = .ok t) :
    (getAIResponse m q).outcome.1 = .ok (.str t) ∧
    ∀ e ∈ (getAIResponse m q).outcome.2, e.isOpenaiCall = false := by
  rw [outcome_gemini_ok m q g t hg ht]
  simp [Event.isOpenaiCall]

/-- Witness of C2: both clients present, Gemini answers. -/
theorem getAIResponse_primary_success_witness :
    (getAIResponse ⟨"gemini", some (openaiAnswering (.str "From OpenAI")),
        some (geminiAnswering "From Gemini")⟩ "Who is Alemu?").outcome.1
      = .ok (.str "From Gemini") ∧
    ∀ e ∈ (getAIResponse ⟨"gemini", some (openaiAnswering (.str "From OpenAI")),
        some (geminiAnswering "From Gemini")⟩ "Who is Alemu?").outcome.2,
      e.isOpenaiCall = false :=
  getAIResponse_primary_success
    ⟨"gemini", some (openaiAnswering (.str "From OpenAI")), some (geminiAnswering "From Gemini")⟩
    "Who is Alemu?" (geminiAnswering "From Gemini") "From Gemini" rfl rfl

/-- Start-up creates at most one client. -/
theorem initialise_one_client (sdk : Sdk) (env : Env) :
    (initialise sdk env).gemini = none ∨ (initialise sdk env).openai = none := by
  unfold initialise
  simp only []
  split_ifs <;> simp

/-- C3, as stated, fails on a state that start-up produces: the environment
selects Gemini and sets the keys of both providers, the Gemini call throws and
the OpenAI client made from the OpenAI key would answer "From OpenAI".
Start-up leaves `openai` null, and `getAIResponse` returns the keyword answer,
not "From OpenAI". -/
theorem getAIResponse_secondary_counterexample :
    truthy bothKeysEnv.GEMINI_API_KEY = true ∧ truthy bothKeysEnv.OPENAI_API_KEY = true ∧
    (∃ g, (initialise outageSdk bothKeysEnv).gemini = some g ∧
      geminiGenerate g (systemPrompt "Who is Alemu?") = .error ⟨"503 Service Unavailable"⟩) ∧
    openaiComplete (outageSdk.newOpenAI "sk-openai") "Who is Alemu?"
      = .ok (.str "From OpenAI") ∧
    (initialise outageSdk bothKeysEnv).openai = none ∧
    (getAIResponse (initialise outageSdk bothKeysEnv) "Who is Alemu?").outcome.1
      = .ok (.str genericAnswer) ∧
    (getAIResponse (initialise outageSdk bothKeysEnv) "Who is Alemu?").outcome.1
      ≠ .ok (.str "From OpenAI") := by
  refine ⟨rfl, rfl, ⟨geminiUnavailable, rfl, rfl⟩, rfl, rfl, rfl, ?_⟩
  intro h
  have h2 : (.ok (.str genericAnswer) : Except JsError JsValue) = .ok (.str "From OpenAI") := h
  injection h2 with h3
  injection h3 with h4
  exact absurd h4 (by decide)

/-- C3, amended: for every start-up environment and every question, when the
Gemini client is configured and its call throws, no OpenAI client exists, no
OpenAI call is made and `getAIResponse(q)` returns `getFallbackResponse(q)`;
the text of the OpenAI client is returned when OpenAI is the configured client
and its call succeeds. -/
theorem getAIResponse_primary_failure (sdk : Sdk) (env : Env) (q : String) :
    (∀ g e, (initialise sdk env).gemini = some g →
      geminiGenerate g (systemPrompt q) = .error e →
      (initialise sdk env).openai = none ∧
      (getAIResponse (initialise sdk env) q).outcome.1 = .ok (.str (getFallbackResponse q)) ∧
      ∀ ev ∈ (getAIResponse (initialise sdk env) q).outcome.2, ev.isOpenaiCall = false) ∧
    (∀ o v, (initialise sdk env).openai = some o → openaiComplete o q = .ok v →
      (getAIResponse (initialise sdk env) q).outcome.1 = .ok v) := by
  refine ⟨?_, ?_⟩
  · intro g e hg he
    refine ⟨?_, ?_⟩
    · rcases initialise_one_client sdk env with h | h
      · rw [hg] at h; cases h
      · exact h
    · rw [outcome_gemini_error (initialise sdk env) q g e hg he]
      simp [Event.isOpenaiCall]
  · intro o v ho hv
    have hg : (initialise sdk env).gemini = none := by
      rcases initialise_one_client sdk env with h | h
      · exact h
      · rw [ho] at h; cases h
    rw [outcome_openai_ok (initialise sdk env) q o v hg ho hv]

/-- Witness of the amended C3: a Gemini outage with both keys set, and an
OpenAI configuration whose call succeeds. -/
theorem getAIResponse_primary_failure_witness :
    ((initialise outageSdk bothKeysEnv).openai = none ∧
      (getAIResponse (initialise outageSdk bothKeysEnv) "Who is Alemu?").outcome.1
        = .ok (.str (getFallbackResponse "Who is Alemu?")) ∧
      ∀ ev ∈ (getAIResponse (initialise outageSdk bothKeysEnv) "Who is Alemu?").outcome.2,
        ev.isOpenaiCall = false) ∧
    (getAIResponse (initialise sampleSdk openaiEnv) "Who is Alemu?").outcome.1
      = .ok (.str "From OpenAI") :=
  ⟨(getAIResponse_primary_failure outageSdk bothKeysEnv "Who is Alemu?").1
      geminiUnavailable ⟨"503 Service Unavailable"⟩ rfl rfl,
   (getAIResponse_primary_failure sampleSdk openaiEnv "Who is Alemu?").2
      (openaiAnswering (.str "From OpenAI")) (.str "From OpenAI") rfl rfl⟩

/-- C4, as stated, fails: a Gemini client that succeeds with the empty text
makes `getAIResponse` return the empty string. -/
theorem getAIResponse_nonempty_counterexample :
    geminiGenerate (geminiAnswering "") (systemPrompt "Who is Alemu?") = .ok "" ∧
    (getAIResponse ⟨"gemini", none, some (geminiAnswering "")⟩ "Who is Alemu?").outcome.1
      = .ok (.str "") ∧
    (JsValue.str "").isNonEmptyString = false :=
  ⟨rfl, rfl, rfl⟩

/-- C4, amended: for every question and every behaviour of the clients,
`getAIResponse(q)` returns without raising, and the value returned is either
the non-empty string `getFallbackResponse(q)`, or exactly the text produced by
the Gemini call, or (the Gemini client being null) exactly the content
produced by the OpenAI call. -/
theorem getAIResponse_total (m : Module) (q : String) :
    ∃ v, (getAIResponse m q).outcome.1 = .ok v ∧
      ((v = .str (getFallbackResponse q) ∧ v.isNonEmptyString = true) ∨
       (∃ g t, m.gemini = some g ∧ geminiGenerate g (systemPrompt q) = .ok t ∧ v = .str t) ∨
       (∃ o, m.gemini = none ∧ m.openai = some o ∧ openaiComplete o q = .ok v)) := by
  have hfb : (JsValue.str (getFallbackResponse q)).isNonEmptyString = true := by
    simp only [JsValue.isNonEmptyString, decide_eq_true_eq]
    exact answers_length_pos _ (getFallbackResponse_mem q)
  rcases hg : m.gemini with _ | g
  · rcases ho : m.openai with _ | o
    · exact ⟨_, by rw [outcome_no_client m q hg ho], Or.inl ⟨rfl, hfb⟩⟩
    · rcases hv : openaiComplete o q with e | v
      · exact ⟨_, by rw [outcome_openai_error m q o e hg ho hv], Or.inl ⟨rfl, hfb⟩⟩
      · exact ⟨v, by rw [outcome_openai_ok m q o v hg ho hv], Or.inr (Or.inr ⟨o, rfl, rfl, hv⟩)⟩
  · rcases ht : geminiGenerate g (systemPrompt q) with e | t
    · exact ⟨_, by rw [outcome_gemini_error m q g e hg ht], Or.inl ⟨rfl, hfb⟩⟩
    · exact ⟨_, by rw [outcome_gemini_ok m q g t hg ht], Or.inr (Or.inl ⟨g, t, rfl, ht, rfl⟩)⟩

/-- C5: when the client that `getAIResponse` calls (Gemini if configured,
otherwise OpenAI if configured) fails in any way, at the SDK call or while the
text is read from the response, `getAIResponse(q)` raises nothing and returns
exactly `getFallbackResponse(q)`. -/
theorem getAIResponse_provider_failure (m : Module) (q : String)
    (h : (∃ g e, m.gemini = some g ∧ geminiGenerate g (systemPrompt q) = .error e) ∨
      (∃ o e, m.gemini = none ∧ m.openai = some o ∧ openaiComplete o q = .error e)) :
    (getAIResponse m q).outcome.1 = .ok (.str (getFallbackResponse q)) := by
  rcases h with ⟨g, e, hg, he⟩ | ⟨o, e, hg, ho, he⟩
  · rw [outcome_gemini_error m q g e hg he]
  · rw [outcome_openai_error m q o e hg ho he]

/-- Witness of C5: a Gemini call that throws, a Gemini response whose text
cannot be read, an OpenAI call that throws, and an OpenAI completion without
choices. -/
theorem getAIResponse_provider_failure_witness :
    (getAIResponse ⟨"gemini", none, some geminiUnavailable⟩ "Who is Alemu?").outcome.1
      = .ok (.str (getFallbackResponse "Who is Alemu?")) ∧
    (getAIResponse ⟨"gemini", none, some geminiBlocked⟩ "Who is Alemu?").outcome.1
      = .ok (.str (getFallbackResponse "Who is Alemu?")) ∧
    (getAIResponse ⟨"openai", some openaiUnavailable, none⟩ "Who is Alemu?").outcome.1
      = .ok (.str (getFallbackResponse "Who is Alemu?")) ∧
    (getAIResponse ⟨"openai", some openaiNoChoices, none⟩ "Who is Alemu?").outcome.1
      = .ok (.str (getFallbackResponse "Who is Alemu?")) :=
  ⟨getAIResponse_provider_failure ⟨"gemini", none, some geminiUnavailable⟩ "Who is Alemu?"
      (Or.inl ⟨geminiUnavailable, ⟨"503 Service Unavailable"⟩, rfl, rfl⟩),
   getAIResponse_provider_failure ⟨"gemini", none, some geminiBlocked⟩ "Who is Alemu?"
      (Or.inl ⟨geminiBlocked, ⟨"Response was blocked"⟩, rfl, rfl⟩),
   getAIResponse_provider_failure ⟨"openai", some openaiUnavailable, none⟩ "Who is Alemu?"
      (Or.inr ⟨openaiUnavailable, ⟨"401 Incorrect API key"⟩, rfl, rfl, rfl⟩),
   getAIResponse_provider_failure ⟨"openai", some openaiNoChoices, none⟩ "Who is Alemu?"
      (Or.inr ⟨openaiNoChoices, typeError, rfl, rfl, rfl⟩)⟩

/-! ## The answers and `cvData` -/

/-- C9, as stated, fails: for a context with another email and another
institution, the contact answer does not contain that email and the education
answer does not contain that institution. -/
theorem getFallbackResponse_context_counterexample :
    otherContext.personal.email = "a.nigru@example.org" ∧
    includes (getFallbackResponse "How can I contact you?") otherContext.personal.email = false ∧
    otherContext.education.map Education.institution = ["Addis Ababa University"] ∧
    includes (getFallbackResponse "What is your education?") "Addis Ababa University" = false := by
  refine ⟨rfl, by decide, rfl, by decide⟩

/-- C9, amended: the answers are literals of the code that take only the
question; for the `cvData` of the repository, the contact answer contains
`cvData.personal.email` and the education answer contains the institution of
every entry of `cvData.education`. -/
theorem getFallbackResponse_literals (q : String) :
    ((∀ k ∈ ["research", "focus", "education", "degree", "skill", "expertise"],
        includes (toLowerCase q) k = false) →
      (includes (toLowerCase q) "contact" = true ∨ includes (toLowerCase q) "email" = true) →
      getFallbackResponse q = contactAnswer ∧
      includes (getFallbackResponse q) cvData.personal.email = true) ∧
    ((∀ k ∈ ["research", "focus"], includes (toLowerCase q) k = false) →
      (includes (toLowerCase q) "education" = true ∨ includes (toLowerCase q) "degree" = true) →
      getFallbackResponse q = educationAnswer ∧
      ∀ e ∈ cvData.education, includes (getFallbackResponse q) e.institution = true) := by
  refine ⟨?_, ?_⟩
  · intro h hce
    simp only [List.mem_cons, List.mem_singleton, List.not_mem_nil, or_false, forall_eq_or_imp,
      forall_eq] at h
    obtain ⟨h1, h2, h3, h4, h5, h6⟩ := h
    have hq : getFallbackResponse q = contactAnswer := by
      unfold getFallbackResponse
      simp only [h1, h2, h3, h4, h5, h6]
      rcases hce with hce | hce <;> simp [hce]
    exact ⟨hq, by rw [hq]; rfl⟩
  · intro h hed
    simp only [List.mem_cons, List.mem_singleton, List.not_mem_nil, or_false, forall_eq_or_imp,
      forall_eq] at h
    obtain ⟨h1, h2⟩ := h
    have hq : getFallbackResponse q = educationAnswer := by
      unfold getFallbackResponse
      simp only [h1, h2]
      rcases hed with hed | hed <;> simp [hed]
    refine ⟨hq, ?_⟩
    rw [hq]
    decide

/-- Witness of the amended C9 at a contact question and an education
question. -/
theorem getFallbackResponse_literals_witness :
    (getFallbackResponse "How can I contact you?" = contactAnswer ∧
      includes (getFallbackResponse "How can I contact you?") cvData.personal.email = true) ∧
    (getFallbackResponse "What is your education?" = educationAnswer ∧
      ∀ e ∈ cvData.education,
        includes (getFallbackResponse "What is your education?") e.institution = true) :=
  ⟨(getFallbackResponse_literals "How can I contact you?").1 (by decide) (Or.inl (by decide)),
   (getFallbackResponse_literals "What is your education?").2 (by decide) (Or.inl (by decide))⟩

/-! ## Start-up and status -/

/-- C10: whatever `AI_PROVIDER` is, when `OPENAI_API_KEY` and `GEMINI_API_KEY`
are both absent no client is created, and the status endpoint reports
`available = false` and `fallback = true`; and for every module state the
reported `fallback` is the negation of the reported `available`. -/
theorem aiStatus_without_keys (sdk : Sdk) (env : Env) :
    (env.OPENAI_API_KEY = none → env.GEMINI_API_KEY = none →
      (initialise sdk env).gemini = none ∧ (initialise sdk env).openai = none ∧
      (aiStatus (initialise sdk env)).available = false ∧
      (aiStatus (initialise sdk env)).fallback = true) ∧
    (∀ m : Module, (aiStatus m).fallback = !(aiStatus m).available) := by
  refine ⟨?_, ?_⟩
  · intro ho hg
    have hm : (initialise sdk env).gemini = none ∧ (initialise sdk env).openai = none := by
      unfold initialise
      simp [ho, hg, truthy]
    refine ⟨hm.1, hm.2, ?_, ?_⟩ <;> simp [aiStatus, Module.anyClient, hm.1, hm.2]
  · intro m
    simp [aiStatus]

/-- Witness of C10: `AI_PROVIDER=openai` with no key set. -/
theorem aiStatus_without_keys_witness :
    (initialise sampleSdk ⟨some "openai", none, none⟩).gemini = none ∧
    (initialise sampleSdk ⟨some "openai", none, none⟩).openai = none ∧
    (aiStatus (initialise sampleSdk ⟨some "openai", none, none⟩)).available = false ∧
    (aiStatus (initialise sampleSdk ⟨some "openai", none, none⟩)).fallback = true :=
  (aiStatus_without_keys sampleSdk ⟨some "openai", none, none⟩).1 rfl rfl

end Portfolio
